import Mathlib

/-
Verification of the pymunk/easymunk binding layer against its
natural-language specification.

The development shallowly embeds three source modules:

* `src/easymunk/mat22.py` — the `Mat22` 2x2 matrix utility.  Python floats
  are modelled by exact rationals (`ℚ`); the spec discusses the closed-form
  algebra, and the claims under scrutiny (`interpolate_to` endpoints, the
  `inverse` docstring identity, error behaviour, purity) are stated over
  exact arithmetic.  Fallible operations are embedded in `Except PyErr`
  mirroring the Python exceptions they can raise.

* `src/pymunk/constraint.py` — the `Constraint` class hierarchy.  The
  foreign (ctypes) layer is opaque in the source, so it is modelled by an
  oracle `ffi : FGet → Nat → PVal` together with an explicit event trace
  recording every foreign-function call and every direct access to the
  ctypes-cast native struct.  Each property getter/setter body is
  transcribed, property by property, from the Python class definitions.

* `src/easymunk/pyglet/draw_options.py` — the pyglet debug-draw adapter.
  The `math` library functions it calls (`cos`, `sin`, `sqrt`, `atan2`) are
  opaque native functions and are abstracted as parameters; the pyglet
  batch is modelled as a list of added primitives, and Python exception
  propagation as an exception-plus-state monad `PyM`.
-/

namespace Mat22Py

/-- The Python exception kinds the embedded `mat22.py` operations can raise. -/
inductive PyErr where
  | typeError
  | indexError
  | zeroDivisionError
  | valueError
deriving DecidableEq

/-- Embedding of `Mat22` (`mat22.py`, lines 33–50): a `NamedTuple` with four
entries `a b c d`, representing the matrix rows `|a b| / |c d|`. -/
structure Mat22 where
  a : ℚ
  b : ℚ
  c : ℚ
  d : ℚ
deriving DecidableEq

namespace Mat22

/-- `Mat22.scale` (lines 78–88): `scale_y` defaults to `scale_x` when absent. -/
def scale (scale_x : ℚ) (scale_y : Option ℚ) : Mat22 :=
  ⟨scale_x, 0, 0, scale_y.getD scale_x⟩

/-- `Mat22.identity` (lines 52–57): `Mat22.scale(1, 1)`. -/
def identity : Mat22 := scale 1 (some 1)

/-- `Mat22.zero` (lines 90–95). -/
def zero : Mat22 := ⟨0, 0, 0, 0⟩

/-- `Mat22.trace` (lines 97–102). -/
def trace (m : Mat22) : ℚ := m.a + m.d

/-- `Mat22.determinant` (lines 104–109). -/
def determinant (m : Mat22) : ℚ := m.a * m.d - m.b * m.c

/-- `Mat22.transposed` (lines 273–277). -/
def transposed (m : Mat22) : Mat22 := ⟨m.a, m.c, m.b, m.d⟩

/-- `Mat22.__add__` (lines 145–150), on `Mat22` operands (any other operand
type yields `NotImplemented`, i.e. a type error). -/
def add (m o : Mat22) : Mat22 :=
  ⟨m.a + o.a, m.b + o.b, m.c + o.c, m.d + o.d⟩

/-- `Mat22.__sub__` (lines 152–157). -/
def sub (m o : Mat22) : Mat22 :=
  ⟨m.a - o.a, m.b - o.b, m.c - o.c, m.d - o.d⟩

/-- `Mat22._real_mul` (lines 159–162): entrywise multiplication by a scalar. -/
def real_mul (m : Mat22) (r : ℚ) : Mat22 :=
  ⟨m.a * r, m.b * r, m.c * r, m.d * r⟩

/-- `Mat22._mat_mul` (lines 164–167), transcribed exactly as written: with
`a, b, c, d = self` and `x, y, z, w = other` the code returns
`Mat22(a*x + b*z, a*y + b*w, c*x + b*z, c*y + d*w)` — note the third entry
multiplies `b`, not `d`, by `z`. -/
def mat_mul (m o : Mat22) : Mat22 :=
  ⟨m.a * o.a + m.b * o.c, m.a * o.b + m.b * o.d,
   m.c * o.a + m.b * o.c, m.c * o.b + m.d * o.d⟩

/-- `Mat22.transform_vector` (lines 266–271). -/
def transform_vector (m : Mat22) (v : ℚ × ℚ) : ℚ × ℚ :=
  (m.a * v.1 + m.c * v.2, m.b * v.1 + m.d * v.2)

/-- `Mat22.__truediv__` (lines 188–189): `self._real_mul(1 / other)`.  In
Python, `1 / 0` raises `ZeroDivisionError` before `_real_mul` runs. -/
def truediv (m : Mat22) (q : ℚ) : Except PyErr Mat22 :=
  if q = 0 then .error .zeroDivisionError else .ok (real_mul m (1 / q))

/-- The index values `Mat22.__getitem__` compares against: an integer or a
pair of integers.  Any operand of another type compares unequal to all six
accepted indices and reaches the `raise IndexError` line, exactly like an
out-of-range integer, so this type covers the whole behaviour. -/
inductive Idx where
  | int (n : ℤ)
  | pair (i j : ℤ)
deriving DecidableEq

/-- Result of indexing: a column vector (`Vec2d`) or a single entry. -/
inductive Entry where
  | vec (x y : ℚ)
  | num (q : ℚ)
deriving DecidableEq

/-- `Mat22.__getitem__` (lines 191–204), as the chain of comparisons in the
source ending in `raise IndexError(idx)`. -/
def getitem (m : Mat22) (idx : Idx) : Except PyErr Entry :=
  if idx = .int 0 then .ok (.vec m.a m.c)
  else if idx = .int 1 then .ok (.vec m.b m.d)
  else if idx = .pair 0 0 then .ok (.num m.a)
  else if idx = .pair 0 1 then .ok (.num m.c)
  else if idx = .pair 1 0 then .ok (.num m.b)
  else if idx = .pair 1 1 then .ok (.num m.d)
  else .error .indexError

/-- The six index values `__getitem__` accepts. -/
def validIdx (idx : Idx) : Bool :=
  idx = .int 0 || idx = .int 1 || idx = .pair 0 0 || idx = .pair 0 1 ||
  idx = .pair 1 0 || idx = .pair 1 1

/-- `Mat22.inverse` (lines 239–246): divides each entry of the adjugate by
the determinant; in Python a zero determinant raises `ZeroDivisionError`. -/
def inverse (m : Mat22) : Except PyErr Mat22 :=
  let det := m.determinant
  if det = 0 then .error .zeroDivisionError
  else .ok ⟨m.d / det, -m.b / det, -m.c / det, m.a / det⟩

/-- The two well-formed operand shapes that `as_mat2` (lines 280–291)
converts without raising: a `Mat22`, or a tuple/list of two number pairs.
The full operand domain — including wrong-shape sequences, whose nested
unpacking raises `ValueError`, and operands of other types, which raise
`TypeError` — is embedded by `MatArg` and `as_mat2_arg` below. -/
inductive MatLike where
  | mat (m : Mat22)
  | pairs (a b c d : ℚ)
deriving DecidableEq

/-- `as_mat2` (lines 280–291), restricted to the well-formed operand shapes
on which it returns without raising (the error-free restriction of
`as_mat2_arg`). -/
def as_mat2 : MatLike → Mat22
  | .mat m => m
  | .pairs a b c d => ⟨a, b, c, d⟩

/-- `Mat22.interpolate_to` (lines 230–237):
`self * (1 - ratio) + as_mat2(other) * ratio`, where both `*` are the
scalar path of `__mul__` (`_real_mul`), restricted to the well-formed
operand shapes; `interpolate_to_arg` below embeds it over `as_mat2`'s full
operand domain. -/
def interpolate_to (m : Mat22) (other : MatLike) (ratio : ℚ) : Mat22 :=
  add (real_mul m (1 - ratio)) (real_mul (as_mat2 other) ratio)

/-- One element of a tuple/list operand of `as_mat2`, as seen by the nested
unpacking `(a, b), (c, d) = obj` (line 287): an iterable of numbers, or a
non-iterable value (whose unpacking raises `TypeError`). -/
inductive SeqElem where
  | seq (xs : List ℚ)
  | nonSeq (q : ℚ)
deriving DecidableEq

/-- The full operand domain of `as_mat2` (lines 280–291): a `Mat22`, a
tuple/list of elements (of any shape), or an object of any other type,
which falls through both `isinstance` checks to the
`raise TypeError(...)` line. -/
inductive MatArg where
  | mat (m : Mat22)
  | seq (elems : List SeqElem)
  | nonSeq
deriving DecidableEq

/-- Unpacking one nested target pair `(a, b) = e` (line 287): a
non-iterable element raises `TypeError`, an iterable of length other than
two raises `ValueError`. -/
def unpackPair : SeqElem → Except PyErr (ℚ × ℚ)
  | .seq [x, y] => .ok (x, y)
  | .seq _ => .error .valueError
  | .nonSeq _ => .error .typeError

/-- `as_mat2` (lines 280–291) over its full operand domain.  A `Mat22` is
returned as is; a tuple/list is unpacked by `(a, b), (c, d) = obj`: first
the outer sequence must have exactly two elements (`ValueError`
otherwise), then each element is unpacked as a pair by `unpackPair` in
order; any other operand raises `TypeError`. -/
def as_mat2_arg : MatArg → Except PyErr Mat22
  | .mat m => .ok m
  | .seq [e1, e2] =>
      match unpackPair e1 with
      | .error er => .error er
      | .ok (a, b) =>
          match unpackPair e2 with
          | .error er => .error er
          | .ok (c, d) => .ok ⟨a, b, c, d⟩
  | .seq _ => .error .valueError
  | .nonSeq => .error .typeError

/-- `Mat22.interpolate_to` (lines 230–237) over `as_mat2`'s full operand
domain: `self * (1 - ratio)` is computed first and cannot fail, then
`as_mat2(other)` may raise, and otherwise the interpolation is formed. -/
def interpolate_to_arg (m : Mat22) (other : MatArg) (ratio : ℚ) :
    Except PyErr Mat22 :=
  match as_mat2_arg other with
  | .error er => .error er
  | .ok o => .ok (add (real_mul m (1 - ratio)) (real_mul o ratio))

/-- A rational complex number, for the `aux < 0` branch of `eigenvalues`
where the Python code multiplies by `1j`. -/
structure CplxQ where
  re : ℚ
  im : ℚ
deriving DecidableEq

/-- Complex subtraction, for `l1 - self.a` in `eigenvectors`. -/
def csub (x y : CplxQ) : CplxQ := ⟨x.re - y.re, x.im - y.im⟩

/-- Complex division of a real numerator, for `self.c / (l1 - self.a)`. -/
def cdivReal (c : ℚ) (y : CplxQ) : CplxQ :=
  let n := y.re * y.re + y.im * y.im
  ⟨c * y.re / n, -(c * y.im) / n⟩

/-- `Mat22.eigenvalues` (lines 119–127), with `math.sqrt` abstracted as a
parameter (it is an opaque native function): `aux` is the discriminant
expression in the source; when negative the code forms `sqrt(-aux) * 1j`,
producing complex eigenvalues. -/
def eigenvalues (sqrt : ℚ → ℚ) (m : Mat22) : CplxQ × CplxQ :=
  let aux := m.d ^ 2 - 2 * m.a * m.d + m.a ^ 2 + 4 * m.c * m.b
  if 0 ≤ aux then
    (⟨(m.d + m.a + sqrt aux) / 2, 0⟩, ⟨(m.d + m.a - sqrt aux) / 2, 0⟩)
  else
    (⟨(m.d + m.a) / 2, sqrt (-aux) / 2⟩, ⟨(m.d + m.a) / 2, -(sqrt (-aux) / 2)⟩)

/-- The exception with which a fallible operation failed, if it did. -/
def errOf : Except PyErr α → Option PyErr
  | .error e => some e
  | .ok _ => none

/-- The value a fallible operation returned, if it did not raise. -/
def okOf : Except PyErr α → Option α
  | .error _ => none
  | .ok a => some a

/-- `Mat22.eigenvectors` (lines 129–137): divides `self.c` by `l1 - self.a`
and `l2 - self.a`, raising `ZeroDivisionError` when a divisor is zero, then
normalizes.  `Vec2d.normalized` lives in `vec2d.py`, outside the embedded
sources, so it is abstracted as a parameter. -/
def eigenvectors (sqrt : ℚ → ℚ) (normalize : CplxQ × CplxQ → CplxQ × CplxQ)
    (m : Mat22) : Except PyErr ((CplxQ × CplxQ) × (CplxQ × CplxQ)) :=
  let (l1, l2) := eigenvalues sqrt m
  if csub l1 ⟨m.a, 0⟩ = ⟨0, 0⟩ then .error .zeroDivisionError
  else if csub l2 ⟨m.a, 0⟩ = ⟨0, 0⟩ then .error .zeroDivisionError
  else .ok (normalize (cdivReal m.c (csub l1 ⟨m.a, 0⟩), ⟨1, 0⟩),
            normalize (cdivReal m.c (csub l2 ⟨m.a, 0⟩), ⟨1, 0⟩))

end Mat22

end Mat22Py

namespace ConstraintPy

/-- The foreign getter functions (`cp.cpXxxGetYyy`) called in
`constraint.py`, one per getter call site. -/
inductive FGet where
  | constraintGetMaxForce | constraintGetErrorBias | constraintGetMaxBias
  | constraintGetCollideBodies | constraintGetImpulse
  | pinJointGetAnchorA | pinJointGetAnchorB | pinJointGetDist
  | slideJointGetAnchorA | slideJointGetAnchorB | slideJointGetMin | slideJointGetMax
  | pivotJointGetAnchorA | pivotJointGetAnchorB
  | grooveJointGetAnchorB | grooveJointGetGrooveA | grooveJointGetGrooveB
  | dampedSpringGetAnchorA | dampedSpringGetAnchorB | dampedSpringGetRestLength
  | dampedSpringGetStiffness | dampedSpringGetDamping
  | dampedRotarySpringGetRestAngle | dampedRotarySpringGetStiffness
  | dampedRotarySpringGetDamping
  | rotaryLimitJointGetMin | rotaryLimitJointGetMax
  | ratchetJointGetAngle | ratchetJointGetPhase | ratchetJointGetRatchet
deriving DecidableEq

/-- The foreign setter functions (`cp.cpXxxSetYyy`) called in
`constraint.py`. -/
inductive FSet where
  | constraintSetMaxForce | constraintSetErrorBias | constraintSetMaxBias
  | constraintSetCollideBodies
  | pinJointSetAnchorA | pinJointSetAnchorB | pinJointSetDist
  | slideJointSetAnchorA | slideJointSetAnchorB | slideJointSetMin | slideJointSetMax
  | pivotJointSetAnchorA | pivotJointSetAnchorB
  | grooveJointSetAnchorB | grooveJointSetGrooveA | grooveJointSetGrooveB
  | dampedSpringSetAnchorA | dampedSpringSetAnchorB | dampedSpringSetRestLength
  | dampedSpringSetStiffness | dampedSpringSetDamping
  | dampedRotarySpringSetRestAngle | dampedRotarySpringSetStiffness
  | dampedRotarySpringSetDamping
  | rotaryLimitJointSetMin | rotaryLimitJointSetMax
  | ratchetJointSetAngle | ratchetJointSetPhase | ratchetJointSetRatchet
deriving DecidableEq

/-- The foreign constraint constructors (`cp.cpXxxNew`) called from the
subclass `__init__` bodies. -/
inductive FNew where
  | pinJointNew | slideJointNew | pivotJointNew | pivotJointNew2 | grooveJointNew
  | dampedSpringNew | dampedRotarySpringNew | rotaryLimitJointNew | ratchetJointNew
  | gearJointNew | simpleMotorNew
deriving DecidableEq

/-- Fields of the ctypes-cast native structs that `GearJoint` and
`SimpleMotor` read and write directly through `self._dsc`. -/
inductive StructField where
  | gearJointPhase | gearJointRatio | simpleMotorRate
deriving DecidableEq

/-- Values flowing through the binding layer: raw values exchanged with the
native library, and Python `Body` object references (for `Constraint.a` /
`Constraint.b`, which return the stored `self._a` / `self._b`). -/
inductive PVal where
  | num (n : ℤ)
  | body (id : Nat)
deriving DecidableEq

/-- Observable events of the binding layer: foreign-function calls on a
native handle, plus direct reads/writes of the cast native struct (which
are memory accesses, not foreign-function calls). -/
inductive Event where
  | ffiGet (f : FGet) (h : Nat)
  | ffiSet (f : FSet) (h : Nat) (v : PVal)
  | ffiNew (f : FNew) (h : Nat)
  | ffiFree (h : Nat)
  | structRead (h : Nat) (fld : StructField)
  | structWrite (h : Nat) (fld : StructField) (v : PVal)
deriving DecidableEq

/-- The body of a property getter in `constraint.py`: a single foreign
getter call, a direct read of a cast-struct field, or returning one of the
Python body references stored by `_set_bodies`. -/
inductive GetterBody where
  | ffiCall (f : FGet)
  | structFieldRead (fld : StructField)
  | storedBodyA
  | storedBodyB
deriving DecidableEq

/-- The body of a property setter in `constraint.py`: a single foreign
setter call, or a direct write of a cast-struct field. -/
inductive SetterBody where
  | ffiCall (f : FSet)
  | structFieldWrite (fld : StructField)
deriving DecidableEq

/-- Every property exposed by `Constraint` and its subclasses, named
class-by-class in source order. -/
inductive PropName where
  | constraintMaxForce | constraintErrorBias | constraintMaxBias
  | constraintCollideBodies | constraintImpulse | constraintA | constraintB
  | pinAnchorA | pinAnchorB | pinDistance
  | slideAnchorA | slideAnchorB | slideMin | slideMax
  | pivotAnchorA | pivotAnchorB
  | grooveAnchorB | grooveGrooveA | grooveGrooveB
  | springAnchorA | springAnchorB | springRestLength | springStiffness
  | springDamping
  | rotSpringRestAngle | rotSpringStiffness | rotSpringDamping
  | rotaryLimitMin | rotaryLimitMax
  | ratchetAngle | ratchetPhase | ratchetRatchet
  | gearPhase | gearRatioProp
  | motorRate
deriving DecidableEq

/-- All properties, in source order. -/
def allProps : List PropName :=
  [.constraintMaxForce, .constraintErrorBias, .constraintMaxBias,
   .constraintCollideBodies, .constraintImpulse, .constraintA, .constraintB,
   .pinAnchorA, .pinAnchorB, .pinDistance,
   .slideAnchorA, .slideAnchorB, .slideMin, .slideMax,
   .pivotAnchorA, .pivotAnchorB,
   .grooveAnchorB, .grooveGrooveA, .grooveGrooveB,
   .springAnchorA, .springAnchorB, .springRestLength, .springStiffness,
   .springDamping,
   .rotSpringRestAngle, .rotSpringStiffness, .rotSpringDamping,
   .rotaryLimitMin, .rotaryLimitMax,
   .ratchetAngle, .ratchetPhase, .ratchetRatchet,
   .gearPhase, .gearRatioProp,
   .motorRate]

/-- The getter body of each property, transcribed from `constraint.py`:
`Constraint.a` / `Constraint.b` are `lambda self: self._a` / `self._b`
(lines 121–124); `GearJoint.phase` / `ratio` return `self._dsc.phase` /
`self._dsc.ratio` (lines 458–468); `SimpleMotor.rate` returns
`self._dsc.rate` (lines 483–487); every other getter is a single
`cp.cpXxxGetYyy(self._constraint)` call. -/
def propGetter : PropName → GetterBody
  | .constraintMaxForce => .ffiCall .constraintGetMaxForce
  | .constraintErrorBias => .ffiCall .constraintGetErrorBias
  | .constraintMaxBias => .ffiCall .constraintGetMaxBias
  | .constraintCollideBodies => .ffiCall .constraintGetCollideBodies
  | .constraintImpulse => .ffiCall .constraintGetImpulse
  | .constraintA => .storedBodyA
  | .constraintB => .storedBodyB
  | .pinAnchorA => .ffiCall .pinJointGetAnchorA
  | .pinAnchorB => .ffiCall .pinJointGetAnchorB
  | .pinDistance => .ffiCall .pinJointGetDist
  | .slideAnchorA => .ffiCall .slideJointGetAnchorA
  | .slideAnchorB => .ffiCall .slideJointGetAnchorB
  | .slideMin => .ffiCall .slideJointGetMin
  | .slideMax => .ffiCall .slideJointGetMax
  | .pivotAnchorA => .ffiCall .pivotJointGetAnchorA
  | .pivotAnchorB => .ffiCall .pivotJointGetAnchorB
  | .grooveAnchorB => .ffiCall .grooveJointGetAnchorB
  | .grooveGrooveA => .ffiCall .grooveJointGetGrooveA
  | .grooveGrooveB => .ffiCall .grooveJointGetGrooveB
  | .springAnchorA => .ffiCall .dampedSpringGetAnchorA
  | .springAnchorB => .ffiCall .dampedSpringGetAnchorB
  | .springRestLength => .ffiCall .dampedSpringGetRestLength
  | .springStiffness => .ffiCall .dampedSpringGetStiffness
  | .springDamping => .ffiCall .dampedSpringGetDamping
  | .rotSpringRestAngle => .ffiCall .dampedRotarySpringGetRestAngle
  | .rotSpringStiffness => .ffiCall .dampedRotarySpringGetStiffness
  | .rotSpringDamping => .ffiCall .dampedRotarySpringGetDamping
  | .rotaryLimitMin => .ffiCall .rotaryLimitJointGetMin
  | .rotaryLimitMax => .ffiCall .rotaryLimitJointGetMax
  | .ratchetAngle => .ffiCall .ratchetJointGetAngle
  | .ratchetPhase => .ffiCall .ratchetJointGetPhase
  | .ratchetRatchet => .ffiCall .ratchetJointGetRatchet
  | .gearPhase => .structFieldRead .gearJointPhase
  | .gearRatioProp => .structFieldRead .gearJointRatio
  | .motorRate => .structFieldRead .simpleMotorRate

/-- The setter body of each property, transcribed from `constraint.py`.
`impulse` is declared `property(_get_impulse)` with no setter (lines
111–119), and `a` / `b` are getter-only lambdas (lines 121–124), so all
three map to `none`.  `GearJoint.phase` / `ratio` and `SimpleMotor.rate`
assign to the cast-struct field; every other setter is a single
`cp.cpXxxSetYyy(self._constraint, value)` call. -/
def propSetter : PropName → Option SetterBody
  | .constraintMaxForce => some (.ffiCall .constraintSetMaxForce)
  | .constraintErrorBias => some (.ffiCall .constraintSetErrorBias)
  | .constraintMaxBias => some (.ffiCall .constraintSetMaxBias)
  | .constraintCollideBodies => some (.ffiCall .constraintSetCollideBodies)
  | .constraintImpulse => none
  | .constraintA => none
  | .constraintB => none
  | .pinAnchorA => some (.ffiCall .pinJointSetAnchorA)
  | .pinAnchorB => some (.ffiCall .pinJointSetAnchorB)
  | .pinDistance => some (.ffiCall .pinJointSetDist)
  | .slideAnchorA => some (.ffiCall .slideJointSetAnchorA)
  | .slideAnchorB => some (.ffiCall .slideJointSetAnchorB)
  | .slideMin => some (.ffiCall .slideJointSetMin)
  | .slideMax => some (.ffiCall .slideJointSetMax)
  | .pivotAnchorA => some (.ffiCall .pivotJointSetAnchorA)
  | .pivotAnchorB => some (.ffiCall .pivotJointSetAnchorB)
  | .grooveAnchorB => some (.ffiCall .grooveJointSetAnchorB)
  | .grooveGrooveA => some (.ffiCall .grooveJointSetGrooveA)
  | .grooveGrooveB => some (.ffiCall .grooveJointSetGrooveB)
  | .springAnchorA => some (.ffiCall .dampedSpringSetAnchorA)
  | .springAnchorB => some (.ffiCall .dampedSpringSetAnchorB)
  | .springRestLength => some (.ffiCall .dampedSpringSetRestLength)
  | .springStiffness => some (.ffiCall .dampedSpringSetStiffness)
  | .springDamping => some (.ffiCall .dampedSpringSetDamping)
  | .rotSpringRestAngle => some (.ffiCall .dampedRotarySpringSetRestAngle)
  | .rotSpringStiffness => some (.ffiCall .dampedRotarySpringSetStiffness)
  | .rotSpringDamping => some (.ffiCall .dampedRotarySpringSetDamping)
  | .rotaryLimitMin => some (.ffiCall .rotaryLimitJointSetMin)
  | .rotaryLimitMax => some (.ffiCall .rotaryLimitJointSetMax)
  | .ratchetAngle => some (.ffiCall .ratchetJointSetAngle)
  | .ratchetPhase => some (.ffiCall .ratchetJointSetPhase)
  | .ratchetRatchet => some (.ffiCall .ratchetJointSetRatchet)
  | .gearPhase => some (.structFieldWrite .gearJointPhase)
  | .gearRatioProp => some (.structFieldWrite .gearJointRatio)
  | .motorRate => some (.structFieldWrite .simpleMotorRate)

/-- Whether a getter body is a foreign-function call. -/
def GetterBody.isFfiCall : GetterBody → Bool
  | .ffiCall _ => true
  | _ => false

/-- Whether a getter body performs any native access at all (a foreign call
or a cast-struct field access), as opposed to returning a stored Python
attribute. -/
def GetterBody.isNativeAccess : GetterBody → Bool
  | .ffiCall _ => true
  | .structFieldRead _ => true
  | _ => false

/-- Whether a setter body is a foreign-function call. -/
def SetterBody.isFfiCall : SetterBody → Bool
  | .ffiCall _ => true
  | _ => false

/-- The Python-visible state of one constraint instance: its native handle,
the contents of the cast native struct as seen through `self._dsc`, and the
stored `self._a` / `self._b` body references. -/
structure CState where
  handle : Nat
  dsc : StructField → PVal
  bodyA : Nat
  bodyB : Nat

/-- Run a getter body: a foreign call consults the foreign-function oracle
`ffi` and records exactly that call; a struct read returns the struct field
and records a memory access; `a` / `b` return the stored body reference and
touch the native layer not at all. -/
def runGetter (ffi : FGet → Nat → PVal) (st : CState) :
    GetterBody → PVal × List Event
  | .ffiCall f => (ffi f st.handle, [Event.ffiGet f st.handle])
  | .structFieldRead fld => (st.dsc fld, [Event.structRead st.handle fld])
  | .storedBodyA => (.body st.bodyA, [])
  | .storedBodyB => (.body st.bodyB, [])

/-- Run a setter body on value `v`: a foreign call records exactly that
call with `v` unchanged; a struct write updates the the cast-struct view and
records a memory access. -/
def runSetter (st : CState) (v : PVal) : SetterBody → CState × List Event
  | .ffiCall f => (st, [Event.ffiSet f st.handle v])
  | .structFieldWrite fld =>
      ({ st with dsc := fun g => if g = fld then v else st.dsc g },
       [Event.structWrite st.handle fld v])

/-- Reading property `p`: dispatch to its getter body. -/
def readProp (ffi : FGet → Nat → PVal) (st : CState) (p : PropName) :
    PVal × List Event :=
  runGetter ffi st (propGetter p)

/-- Writing value `v` to property `p`: `none` when the property has no
setter (Python raises `AttributeError` and performs no native access). -/
def writeProp (st : CState) (p : PropName) (v : PVal) :
    Option (CState × List Event) :=
  (propSetter p).map (runSetter st v)

/-- Does a trace consist of exactly one foreign getter call?  This
formalizes the spec's claim that reading a property "performs exactly the
corresponding foreign getter call" (and nothing else). -/
def isSingleFfiGet : List Event → Bool
  | [Event.ffiGet _ _] => true
  | _ => false

/-- The constraint classes defined by `constraint.py`, in source order. -/
inductive ModuleClass where
  | pinJoint | slideJoint | pivotJoint | grooveJoint | dampedSpring
  | dampedRotarySpring | rotaryLimitJoint | ratchetJoint | gearJoint
  | simpleMotor
deriving DecidableEq

/-- The `Constraint` subclasses that `constraint.py` defines, in source
order (the base class `Constraint` aside). -/
def moduleClasses : List ModuleClass :=
  [.pinJoint, .slideJoint, .pivotJoint, .grooveJoint, .dampedSpring,
   .dampedRotarySpring, .rotaryLimitJoint, .ratchetJoint, .gearJoint,
   .simpleMotor]

/-- The joint kinds named by the spec's glossary. -/
inductive JointKind where
  | pin | slide | pivot | groove | spring | motor | gear | ratchet
deriving DecidableEq

/-- All glossary joint kinds. -/
def allKinds : List JointKind :=
  [.pin, .slide, .pivot, .groove, .spring, .motor, .gear, .ratchet]

/-- The class implementing each glossary joint kind. -/
def classFor : JointKind → ModuleClass
  | .pin => .pinJoint
  | .slide => .slideJoint
  | .pivot => .pivotJoint
  | .groove => .grooveJoint
  | .spring => .dampedSpring
  | .motor => .simpleMotor
  | .gear => .gearJoint
  | .ratchet => .ratchetJoint

/-- The foreign constructor calls appearing in each class's `__init__`
(`PivotJoint.__init__` calls `cpPivotJointNew` or `cpPivotJointNew2`
depending on its argument count; every other `__init__` calls exactly
one). -/
def ctorFns : ModuleClass → List FNew
  | .pinJoint => [.pinJointNew]
  | .slideJoint => [.slideJointNew]
  | .pivotJoint => [.pivotJointNew, .pivotJointNew2]
  | .grooveJoint => [.grooveJointNew]
  | .dampedSpring => [.dampedSpringNew]
  | .dampedRotarySpring => [.dampedRotarySpringNew]
  | .rotaryLimitJoint => [.rotaryLimitJointNew]
  | .ratchetJoint => [.ratchetJointNew]
  | .gearJoint => [.gearJointNew]
  | .simpleMotor => [.simpleMotorNew]

/-- The foreign constructor matching each glossary kind. -/
def kindCtor : JointKind → FNew
  | .pin => .pinJointNew
  | .slide => .slideJointNew
  | .pivot => .pivotJointNew
  | .groove => .grooveJointNew
  | .spring => .dampedSpringNew
  | .motor => .simpleMotorNew
  | .gear => .gearJointNew
  | .ratchet => .ratchetJointNew

/-- The foreign constructor a successful `__init__` of the given class
calls.  The `Bool` selects `PivotJoint`'s two-anchor-point form
(`cpPivotJointNew2`) over its one-pivot-point form and is ignored by every
other class. -/
def initCtor : ModuleClass → Bool → FNew
  | .pivotJoint, true => .pivotJointNew2
  | .pivotJoint, false => .pivotJointNew
  | .pinJoint, _ => .pinJointNew
  | .slideJoint, _ => .slideJointNew
  | .grooveJoint, _ => .grooveJointNew
  | .dampedSpring, _ => .dampedSpringNew
  | .dampedRotarySpring, _ => .dampedRotarySpringNew
  | .rotaryLimitJoint, _ => .rotaryLimitJointNew
  | .ratchetJoint, _ => .ratchetJointNew
  | .gearJoint, _ => .gearJointNew
  | .simpleMotor, _ => .simpleMotorNew

/-- A property operation performed on a live constraint instance. -/
inductive PropOp where
  | get (p : PropName)
  | set (p : PropName) (v : PVal)

/-- One property operation: a read leaves the state unchanged; a write on a
property with a setter runs it, and a write on a read-only property raises
`AttributeError` in Python before any native access, so it produces no
events and no state change. -/
def runOp (ffi : FGet → Nat → PVal) (st : CState) : PropOp → CState × List Event
  | .get p => (st, (readProp ffi st p).2)
  | .set p v =>
      match writeProp st p v with
      | some r => r
      | none => (st, [])

/-- A sequence of property operations, threading the state and
concatenating the event traces. -/
def runOps (ffi : FGet → Nat → PVal) (st : CState) :
    List PropOp → CState × List Event
  | [] => (st, [])
  | op :: rest =>
      let r := runOp ffi st op
      let r2 := runOps ffi r.1 rest
      (r2.1, r.2 ++ r2.2)

/-- The full event trace of one constraint instance's lifetime, following
the source: `__init__` makes exactly one foreign constructor call
(`self._constraint = cp.cpXxxNew(...)`, together with the event-free
`_set_bodies` bookkeeping and, for `GearJoint` / `SimpleMotor`, the ctypes
cast which is a local pointer conversion, not a foreign call); then the
instance's property operations run; `__del__` (lines 137–139) makes exactly
one `cp.cpConstraintFree(self._constraint)` call. -/
def lifecycleTrace (ffi : FGet → Nat → PVal) (cls : ModuleClass) (two : Bool)
    (st : CState) (ops : List PropOp) : List Event :=
  [Event.ffiNew (initCtor cls two) st.handle] ++ (runOps ffi st ops).2 ++
    [Event.ffiFree st.handle]

/-- Does an event allocate the handle `h`? -/
def Event.allocates (h : Nat) : Event → Bool
  | .ffiNew _ h2 => h2 = h
  | _ => false

/-- Does an event free the handle `h`? -/
def Event.frees (h : Nat) : Event → Bool
  | .ffiFree h2 => h2 = h
  | _ => false

/-- A 2D point argument (`Vec2d` or an `(x, y)` pair) as passed to
`PivotJoint.__init__`. -/
structure PivotArg where
  x : ℚ
  y : ℚ
deriving DecidableEq

/-- A Python `Body` as far as `constraint.py` touches it: its identity and
its `_constraints` registry, which `Constraint._set_bodies` (lines 131–135)
adds the new constraint to. -/
structure BodySt where
  id : Nat
  constraints : List Nat
deriving DecidableEq

/-- `a._constraints.add(self)`: Python set insertion. -/
def registerConstraint (b : BodySt) (selfId : Nat) : BodySt :=
  if selfId ∈ b.constraints then b
  else { b with constraints := b.constraints ++ [selfId] }

/-- Outcome of `PivotJoint.__init__`: the raised exception message if any,
the native handle if one was created, the two bodies afterwards, and the
foreign calls made. -/
structure PivotInitOut where
  err : Option String
  handle : Option Nat
  a : BodySt
  b : BodySt
  events : List Event
deriving DecidableEq

/-- `PivotJoint.__init__` (lines 216–246): with one positional point it
calls `cpPivotJointNew`, with two it calls `cpPivotJointNew2`, and with any
other count it raises before any foreign call and before `_set_bodies`, so
the failed construction creates no handle and touches neither body.
`newHandle` stands for the handle the foreign constructor would return. -/
def pivotJointInit (selfId newHandle : Nat) (a b : BodySt)
    (args : List PivotArg) : PivotInitOut :=
  if args.length = 1 then
    { err := none, handle := some newHandle,
      a := registerConstraint a selfId, b := registerConstraint b selfId,
      events := [Event.ffiNew .pivotJointNew newHandle] }
  else if args.length = 2 then
    { err := none, handle := some newHandle,
      a := registerConstraint a selfId, b := registerConstraint b selfId,
      events := [Event.ffiNew .pivotJointNew2 newHandle] }
  else
    { err := some "You must specify either one pivot point or two anchor points",
      handle := none, a := a, b := b, events := [] }

end ConstraintPy

namespace PygletPy

/-- A color as it reaches the batch: the result of
`SpaceDebugColor.as_int()` (a 4-tuple of ints; `space_debug_draw_options.py`
is outside the embedded sources, so only this observable value is kept). -/
abbrev Color := List ℤ

/-- A 2D point.  `Vec2d` lives in `vec2d.py`, outside the embedded sources;
modelled from the spec as one of the "small math utility types (2D
vectors)" with componentwise coordinates. -/
structure V2 where
  x : ℚ
  y : ℚ
deriving DecidableEq

/-- The OpenGL primitive modes the adapter passes to `batch.add`. -/
inductive GLMode where
  | points | lines | triangles | triangleStrip
deriving DecidableEq

/-- The pyglet rendering groups the adapter passes to `batch.add`:
`pyglet.graphics.OrderedGroup(n)` in `draw_circle`, and the point-size
group `_GrPointSize(size)` in `draw_dot`. -/
inductive GLGroup where
  | ordered (n : ℕ)
  | pointSize (s : ℚ)
deriving DecidableEq

/-- The vertex payload of one `batch.add` call: a `("v2f", ...)` float list
or a `("v2i", ...)` int list. -/
inductive VertexData where
  | v2f (vs : List ℚ)
  | v2i (vs : List ℤ)
deriving DecidableEq

/-- One vertex primitive added to the batch: the arguments of a single
`self.batch.add(count, mode, group, (fmt, vertices), ("c4B", colors))`
call. -/
structure Prim where
  count : ℕ
  mode : GLMode
  group : Option GLGroup
  vertices : VertexData
  colors : List ℤ
deriving DecidableEq

/-- The mutable state a `DrawOptions` instance owns: its pyglet batch
(modelled by the list of primitives added to it) and the `new_batch` flag
set in `__init__`. -/
structure DrawSt where
  batch : List Prim
  newBatch : Bool
deriving DecidableEq

/-- The Python exceptions the embedded draw methods can raise
(`ZeroDivisionError` from `2 * math.pi / num_segments` when
`num_segments == 0`; `IndexError` from `ps[0]` / `vs[0]` on an empty
list). -/
inductive PyExn where
  | zeroDivisionError
  | indexError
deriving DecidableEq

/-- Python computation over the `DrawOptions` state: returns a value or
propagates an exception, in both cases with the state reached so far. -/
def PyM (α : Type) := DrawSt → Except PyExn α × DrawSt

/-- Return a value, leaving the state untouched. -/
def PyM.pure (a : α) : PyM α := fun st => (.ok a, st)

/-- Sequencing with Python exception propagation: once an exception is
raised the rest of the computation is skipped. -/
def PyM.bind (m : PyM α) (f : α → PyM β) : PyM β := fun st =>
  match m st with
  | (.ok a, st') => f a st'
  | (.error e, st') => (.error e, st')

/-- Raise an exception. -/
def PyM.throw (e : PyExn) : PyM α := fun st => (.error e, st)

/-- Modelled from the spec: `pyglet.graphics.Batch.add` registers one
vertex-list primitive with the batch for later on-screen rendering (the
debug-draw adapters "translate physics-engine query results into
toolkit-specific vertex/batch calls").  The batch is the only state it
touches. -/
def batchAdd (p : Prim) : PyM Unit := fun st =>
  (.ok (), { st with batch := st.batch ++ [p] })

/-- The opaque native `math` library functions the adapter calls, plus
`math.pi`, abstracted as parameters. -/
structure MathFns where
  cos : ℚ → ℚ
  sin : ℚ → ℚ
  sqrt : ℚ → ℚ
  atan2 : ℚ → ℚ → ℚ
  pi : ℚ

/-- Python `int(q)`: truncation toward zero. -/
def pyInt (q : ℚ) : ℤ := if 0 ≤ q then ⌊q⌋ else -⌊-q⌋

/-- Python sequence repetition `color.as_int() * n`. -/
def colorTimes (c : Color) (n : ℕ) : Color := (List.replicate n c).flatten

/-- Flatten points into the `vs += [p.x, p.y]` coordinate list. -/
def flattenPts (ps : List V2) : List ℚ := ps.flatMap fun p => [p.x, p.y]

/-- The point loop of `draw_circle` (lines 94–98): starting from
`(x, y) = (radius, 0)`, append `center + (x, y)` and rotate `(x, y)` by the
segment angle via `x' = c*x - s*y`, `y' = s*x + c*y` each iteration. -/
def circlePoints (c s cx cy : ℚ) : ℕ → ℚ → ℚ → List V2
  | 0, _, _ => []
  | n + 1, x, y => ⟨cx + x, cy + y⟩ :: circlePoints c s cx cy n (c * x - s * y) (s * x + c * y)

/-- `DrawOptions.draw_circle` (lines 73–123).  `num_segments` is
`int(4 * math.sqrt(radius))`; when it is `0` the line
`theta = 2 * math.pi / num_segments` raises `ZeroDivisionError`, and when
it is negative the point loop runs zero times (`range` of a non-positive
bound is empty) and `ps2 = [ps[0]]` raises `IndexError`.  Otherwise the
code reorders the points into a triangle strip (`range(1, int(len(ps) +
1 / 2))` is `range(1, len(ps))` since `1 / 2 == 0.5`), pads the strip with
its first and last points, and makes exactly two `batch.add` calls. -/
def draw_circle (mf : MathFns) (pos : V2) (angle radius : ℚ)
    (outline_color fill_color : Color) : PyM Unit :=
  let num_segments := pyInt (4 * mf.sqrt radius)
  if num_segments = 0 then PyM.throw .zeroDivisionError
  else
    let theta := 2 * mf.pi / (num_segments : ℚ)
    let c := mf.cos theta
    let s := mf.sin theta
    let ps := circlePoints c s pos.x pos.y num_segments.toNat radius 0
    if ps.length = 0 then PyM.throw .indexError
    else
      let ps2 := ps.headD ⟨0, 0⟩ ::
        (List.range' 1 (ps.length - 1)).flatMap
          (fun i => [ps.getD i ⟨0, 0⟩, ps.getD (ps.length - i) ⟨0, 0⟩])
      let vs := flattenPts ([ps2.headD ⟨0, 0⟩] ++ ps2 ++ [ps2.getLastD ⟨0, 0⟩])
      let cc : V2 := ⟨pos.x + radius * mf.cos angle, pos.y + radius * mf.sin angle⟩
      let cvs : List ℚ := [pos.x, pos.y, cc.x, cc.y]
      let l := vs.length / 2
      PyM.bind
        (batchAdd ⟨vs.length / 2, .triangleStrip, some (.ordered 0), .v2f vs,
          colorTimes fill_color l⟩)
        (fun _ =>
          batchAdd ⟨2, .lines, some (.ordered 1), .v2f cvs,
            colorTimes outline_color 2⟩)

/-- `DrawOptions.draw_segment` (lines 125–132): one `batch.add` of a
two-point `GL_LINES` primitive with truncated integer coordinates. -/
def draw_segment (a b : V2) (color : Color) : PyM Unit :=
  let line : List ℤ := [pyInt a.x, pyInt a.y, pyInt b.x, pyInt b.y]
  batchAdd ⟨2, .lines, none, .v2i line, colorTimes color 2⟩

/-- `DrawOptions.draw_fat_segment` (lines 134–167): one `batch.add` of the
six-corner triangle list, then two rounded caps drawn through
`draw_circle` with the radius clamped to at least `1`. -/
def draw_fat_segment (mf : MathFns) (a b : V2) (radius : ℚ)
    (outline_color fill_color : Color) : PyM Unit :=
  let d : V2 := ⟨b.x - a.x, b.y - a.y⟩
  let at2 := -(mf.atan2 d.x d.y)
  let radius2 := max radius 1
  let dx := radius2 * mf.cos at2
  let dy := radius2 * mf.sin at2
  let p1 : V2 := ⟨a.x + dx, a.y + dy⟩
  let p2 : V2 := ⟨a.x - dx, a.y - dy⟩
  let p3 : V2 := ⟨b.x + dx, b.y + dy⟩
  let p4 : V2 := ⟨b.x - dx, b.y - dy⟩
  let vs := flattenPts [p1, p2, p3, p2, p3, p4]
  let l := vs.length / 2
  PyM.bind
    (batchAdd ⟨l, .triangles, none, .v2f vs, colorTimes fill_color l⟩)
    (fun _ =>
      PyM.bind (draw_circle mf a 0 radius2 fill_color fill_color)
        (fun _ => draw_circle mf b 0 radius2 fill_color fill_color))

/-- The `for i in range(len(verts))` edge loop at the end of
`draw_polygon`, drawing each edge as a fat segment with the outline color
for both colors. -/
def polyEdges (mf : MathFns) (verts : List V2) (radius : ℚ)
    (oc : Color) : List ℕ → PyM Unit
  | [] => PyM.pure ()
  | i :: rest =>
      PyM.bind
        (draw_fat_segment mf (verts.getD i ⟨0, 0⟩)
          (verts.getD ((i + 1) % verts.length) ⟨0, 0⟩) radius oc oc)
        (fun _ => polyEdges mf verts radius oc rest)

/-- `DrawOptions.draw_polygon` (lines 169–200): interleave the vertices
from both ends into a triangle strip, append the middle vertex when the
count is odd, pad with the first and last coordinate pairs (`vs[0]` raises
`IndexError` when `verts` is empty), make one `batch.add`, and when
`radius > 0` draw every edge as a fat segment. -/
def draw_polygon (mf : MathFns) (verts : List V2) (radius : ℚ)
    (outline_color fill_color : Color) : PyM Unit :=
  let l := verts.length
  let mid := l / 2
  let vs := (List.range mid).flatMap
    (fun i => [(verts.getD i ⟨0, 0⟩).x, (verts.getD i ⟨0, 0⟩).y,
               (verts.getD (l - 1 - i) ⟨0, 0⟩).x, (verts.getD (l - 1 - i) ⟨0, 0⟩).y])
  let vs := if l % 2 = 1 then vs ++ [(verts.getD mid ⟨0, 0⟩).x, (verts.getD mid ⟨0, 0⟩).y] else vs
  if vs.length = 0 then PyM.throw .indexError
  else
    let vs := [vs.getD 0 0, vs.getD 1 0] ++ vs ++
      [vs.getD (vs.length - 2) 0, vs.getD (vs.length - 1) 0]
    let l2 := vs.length / 2
    PyM.bind
      (batchAdd ⟨l2, .triangleStrip, none, .v2f vs, colorTimes fill_color l2⟩)
      (fun _ =>
        if 0 < radius then polyEdges mf verts radius outline_color (List.range verts.length)
        else PyM.pure ())

/-- `DrawOptions.draw_dot` (lines 202–210): one `batch.add` of a single
`GL_POINTS` vertex under the point-size group. -/
def draw_dot (size : ℚ) (pos : V2) (color : Color) : PyM Unit :=
  batchAdd ⟨1, .points, some (.pointSize size), .v2f [pos.x, pos.y],
    colorTimes color 1⟩

/-- The frame property claimed of every draw method: whatever it returns or
raises, the state it leaves behind is the input state with zero or more
primitives appended to the batch, every other field (`new_batch`)
untouched. -/
def OnlyExtendsBatch (m : PyM Unit) : Prop :=
  ∀ st : DrawSt, ∃ added : List Prim,
    (m st).2.batch = st.batch ++ added ∧ (m st).2.newBatch = st.newBatch

end PygletPy

namespace Mat22Py

namespace Mat22

theorem csub_eq_zero_iff (x y : CplxQ) : csub x y = ⟨0, 0⟩ ↔ x = y := by
  cases x; cases y
  simp [csub, sub_eq_zero]

/-- C10: for every `Mat22` `m` and every `Mat22` `other`,
`m.interpolate_to(other, 0.0)` equals `m` and `m.interpolate_to(other, 1.0)`
equals `other`, over exact arithmetic. -/
theorem interpolate_to_endpoints (m o : Mat22) :
    m.interpolate_to (.mat o) 0 = m ∧ m.interpolate_to (.mat o) 1 = o := by
  cases m; cases o
  constructor <;> simp [interpolate_to, add, real_mul, as_mat2]

/-- C4: evaluating the code at `m = Mat22(1, 2, 3, 4)` (determinant `-2`,
nonzero): `m.inverse() * m` as computed by `_mat_mul` is
`Mat22(1, 0, 9/2, 1)`, not `Mat22.identity()`, because `_mat_mul`'s third
entry is `c*x + b*z` instead of `c*x + d*z`; the same slip makes
`Mat22.identity()` fail as a left identity.  This contradicts the `inverse`
docstring `M.inverse() * M = Mat22.identity()`. -/
theorem inverse_times_self_not_identity :
    okOf (inverse ⟨1, 2, 3, 4⟩) = some ⟨-2, 1, 3/2, -(1/2)⟩ ∧
    mat_mul ⟨-2, 1, 3/2, -(1/2)⟩ ⟨1, 2, 3, 4⟩ = ⟨1, 0, 9/2, 1⟩ ∧
    mat_mul ⟨-2, 1, 3/2, -(1/2)⟩ ⟨1, 2, 3, 4⟩ ≠ identity ∧
    mat_mul identity ⟨1, 2, 3, 4⟩ = ⟨1, 2, 0, 4⟩ := by
  refine ⟨?_, ?_, ?_, ?_⟩ <;>
    norm_num [okOf, inverse, determinant, mat_mul, identity, scale, Mat22.mk.injEq]

/-- C2 counterexample: indexing a `Mat22` with the integer `2` fails with
`IndexError` — a failure that is not a type error — refuting the claim that
no failure besides type errors is possible. -/
theorem getitem_index_error_cx :
    errOf (getitem ⟨0, 0, 0, 0⟩ (Idx.int 2)) = some PyErr.indexError ∧
    PyErr.indexError ≠ PyErr.typeError := by
  decide

theorem interpolate_to_arg_mat (m o : Mat22) (r : ℚ) :
    interpolate_to_arg m (.mat o) r = .ok (interpolate_to m (.mat o) r) := rfl

/-- C2 (amended): the failure behaviour of the fallible `Mat22` operations,
characterized exactly: `__getitem__` fails, with `IndexError`, precisely on
the indices outside the six it accepts; `inverse` fails, with
`ZeroDivisionError`, precisely on determinant-zero matrices;
`__truediv__` fails, with `ZeroDivisionError`, precisely on divisor zero;
`eigenvectors` fails, with `ZeroDivisionError`, precisely when an
eigenvalue equals the entry `a`; `as_mat2` — and through it
`interpolate_to`, which fails exactly when `as_mat2` does on its operand —
accepts every `Mat22` operand, fails with `TypeError` on an operand of any
other non-sequence type, and on a tuple/list operand fails with
`ValueError` unless it has exactly two elements, then with the `TypeError`
(non-iterable element) or `ValueError` (element not a pair) of the first
failing nested unpacking, in order.  All remaining embedded operations
(construction, `__add__`, `__sub__`, `_real_mul`, `_mat_mul`,
`transposed`, `eigenvalues`, ...) are total functions, and operands of the
wrong type are otherwise rejected by type errors (`NotImplemented` /
`TypeError`) alone. -/
theorem mat22_failures_characterized (m : Mat22) (idx : Idx) (q : ℚ)
    (sq : ℚ → ℚ) (nrm : CplxQ × CplxQ → CplxQ × CplxQ)
    (xs : List ℚ) (es : List SeqElem) (arg : MatArg) :
    errOf (getitem m idx) =
      (if validIdx idx then none else some PyErr.indexError) ∧
    errOf (inverse m) =
      (if m.determinant = 0 then some PyErr.zeroDivisionError else none) ∧
    errOf (truediv m q) =
      (if q = 0 then some PyErr.zeroDivisionError else none) ∧
    errOf (eigenvectors sq nrm m) =
      (if (eigenvalues sq m).1 = ⟨m.a, 0⟩ ∨ (eigenvalues sq m).2 = ⟨m.a, 0⟩
       then some PyErr.zeroDivisionError else none) ∧
    errOf (unpackPair (SeqElem.seq xs)) =
      (if xs.length = 2 then none else some PyErr.valueError) ∧
    errOf (unpackPair (SeqElem.nonSeq q)) = some PyErr.typeError ∧
    errOf (as_mat2_arg (MatArg.mat m)) = none ∧
    errOf (as_mat2_arg MatArg.nonSeq) = some PyErr.typeError ∧
    errOf (as_mat2_arg (MatArg.seq es)) =
      (match es with
       | [e1, e2] =>
           (errOf (unpackPair e1)).orElse (fun _ => errOf (unpackPair e2))
       | _ => some PyErr.valueError) ∧
    errOf (interpolate_to_arg m arg q) = errOf (as_mat2_arg arg) := by
  refine ⟨?_, ?_, ?_, ?_, ?_, rfl, rfl, rfl, ?_, ?_⟩
  · simp only [getitem, validIdx, errOf]
    split_ifs <;> simp_all
  · simp only [inverse, errOf]
    split_ifs <;> rfl
  · simp only [truediv, errOf]
    split_ifs <;> rfl
  · rcases hev : eigenvalues sq m with ⟨l1, l2⟩
    simp only [eigenvectors, hev, errOf]
    split_ifs with h1 h2 <;> simp_all [csub_eq_zero_iff]
  · rcases xs with _ | ⟨x, _ | ⟨y, _ | ⟨z, rest⟩⟩⟩ <;> simp [unpackPair, errOf]
  · rcases es with _ | ⟨e1, _ | ⟨e2, _ | ⟨e3, rest⟩⟩⟩
    · rfl
    · rfl
    · cases h1 : unpackPair e1 with
      | error er1 => simp [as_mat2_arg, h1, errOf, Option.orElse]
      | ok p1 =>
          cases p1
          cases h2 : unpackPair e2 with
          | error er2 => simp [as_mat2_arg, h1, h2, errOf, Option.orElse]
          | ok p2 =>
              cases p2
              simp [as_mat2_arg, h1, h2, errOf, Option.orElse]
    · rfl
  · cases h : as_mat2_arg arg <;> simp [interpolate_to_arg, h, errOf]

/-- C6: every embedded `Mat22` operation is a pure, deterministic function.
In the source, `Mat22` subclasses `NamedTuple` — an immutable type — and no
method of the class assigns to `self` or to any field, so each operation is
faithfully embedded as a pure function of its operands: the operands' four
entries are values that cannot change, and two calls with equal arguments
return equal results, which is the congruence stated here. -/
theorem mat22_ops_deterministic (m m' o o' : Mat22) (r r' : ℚ)
    (idx idx' : Idx) (t t' : MatLike)
    (hm : m = m') (ho : o = o') (hr : r = r') (hi : idx = idx')
    (ht : t = t') :
    add m o = add m' o' ∧ sub m o = sub m' o' ∧
    real_mul m r = real_mul m' r' ∧ mat_mul m o = mat_mul m' o' ∧
    truediv m r = truediv m' r' ∧ getitem m idx = getitem m' idx' ∧
    inverse m = inverse m' ∧ interpolate_to m t r = interpolate_to m' t' r' ∧
    transposed m = transposed m' ∧ trace m = trace m' ∧
    determinant m = determinant m' ∧
    transform_vector m (r, r) = transform_vector m' (r', r') := by
  subst hm; subst ho; subst hr; subst hi; subst ht
  exact ⟨rfl, rfl, rfl, rfl, rfl, rfl, rfl, rfl, rfl, rfl, rfl, rfl⟩

/-- Witness for `mat22_ops_deterministic` at concrete equal arguments. -/
theorem mat22_ops_deterministic_witness :
    add ⟨1, 2, 3, 4⟩ ⟨5, 6, 7, 8⟩ = add ⟨1, 2, 3, 4⟩ ⟨5, 6, 7, 8⟩ :=
  (mat22_ops_deterministic ⟨1, 2, 3, 4⟩ ⟨1, 2, 3, 4⟩ ⟨5, 6, 7, 8⟩
    ⟨5, 6, 7, 8⟩ 2 2 (.int 0) (.int 0) (.mat ⟨0, 0, 0, 0⟩)
    (.mat ⟨0, 0, 0, 0⟩) rfl rfl rfl rfl rfl).1

end Mat22

end Mat22Py

namespace ConstraintPy

/-- C1 counterexample: reading `GearJoint.phase` executes
`return self._dsc.phase` — a direct read of the ctypes-cast native struct —
so its event trace contains no foreign getter call at all, refuting the
claim that reading every property performs exactly the corresponding
foreign getter call on the handle. -/
theorem gear_phase_not_ffi_cx :
    isSingleFfiGet (readProp (fun _ _ => PVal.num 0)
      ⟨7, fun _ => PVal.num 0, 1, 2⟩ PropName.gearPhase).2 = false ∧
    (readProp (fun _ _ => PVal.num 0) ⟨7, fun _ => PVal.num 0, 1, 2⟩
        PropName.gearPhase).2 =
      [Event.structRead 7 StructField.gearJointPhase] := by
  exact ⟨rfl, rfl⟩

/-- C1 (amended): every property whose accessors are foreign-backed is an
exact pass-through — reading performs exactly the one corresponding foreign
getter call and returns its result unchanged, and writing performs exactly
the one corresponding foreign setter call with the value unchanged — and
the only properties that are not foreign-backed are `Constraint.a` /
`Constraint.b` (which return the stored Python body references with no
native access) and `GearJoint.phase` / `GearJoint.ratio` /
`SimpleMotor.rate` (which read and write the cast native struct fields
directly instead of calling foreign functions; `impulse` reads through a
foreign call but has no setter). -/
theorem constraint_props_pass_through (ffi : FGet → Nat → PVal) (st : CState)
    (p : PropName) (f : FGet) (s : FSet) (fld : StructField) (v : PVal) :
    (propGetter p = .ffiCall f →
      readProp ffi st p = (ffi f st.handle, [Event.ffiGet f st.handle])) ∧
    (propSetter p = some (.ffiCall s) →
      writeProp st p v = some (st, [Event.ffiSet s st.handle v])) ∧
    (propGetter p = .structFieldRead fld →
      readProp ffi st p = (st.dsc fld, [Event.structRead st.handle fld])) ∧
    (propSetter p = some (.structFieldWrite fld) →
      writeProp st p v =
        some ({ st with dsc := fun g => if g = fld then v else st.dsc g },
              [Event.structWrite st.handle fld v])) ∧
    allProps.filter (fun q => !(propGetter q).isFfiCall) =
      [.constraintA, .constraintB, .gearPhase, .gearRatioProp, .motorRate] ∧
    allProps.filter
        (fun q => match propSetter q with
          | some (.ffiCall _) => false
          | _ => true) =
      [.constraintImpulse, .constraintA, .constraintB, .gearPhase,
       .gearRatioProp, .motorRate] := by
  refine ⟨?_, ?_, ?_, ?_, ?_, ?_⟩
  · intro h; simp [readProp, h, runGetter]
  · intro h; simp [writeProp, h, runSetter]
  · intro h; simp [readProp, h, runGetter]
  · intro h; simp [writeProp, h, runSetter]
  · decide
  · decide

/-- Witness for `constraint_props_pass_through`: the pass-through equations
instantiated at `PinJoint.anchor_a` (foreign-backed, read and write) and at
`GearJoint.phase` (struct-backed read). -/
theorem constraint_props_pass_through_witness :
    readProp (fun _ _ => PVal.num 3) ⟨7, fun _ => PVal.num 0, 1, 2⟩
        PropName.pinAnchorA =
      (PVal.num 3, [Event.ffiGet FGet.pinJointGetAnchorA 7]) ∧
    writeProp ⟨7, fun _ => PVal.num 0, 1, 2⟩ PropName.pinAnchorA
        (PVal.num 5) =
      some (⟨7, fun _ => PVal.num 0, 1, 2⟩,
            [Event.ffiSet FSet.pinJointSetAnchorA 7 (PVal.num 5)]) ∧
    readProp (fun _ _ => PVal.num 3) ⟨7, fun _ => PVal.num 0, 1, 2⟩
        PropName.gearPhase =
      (PVal.num 0, [Event.structRead 7 StructField.gearJointPhase]) :=
  ⟨(constraint_props_pass_through (fun _ _ => PVal.num 3)
      ⟨7, fun _ => PVal.num 0, 1, 2⟩ PropName.pinAnchorA
      FGet.pinJointGetAnchorA FSet.pinJointSetAnchorA
      StructField.gearJointPhase (PVal.num 5)).1 rfl,
   (constraint_props_pass_through (fun _ _ => PVal.num 3)
      ⟨7, fun _ => PVal.num 0, 1, 2⟩ PropName.pinAnchorA
      FGet.pinJointGetAnchorA FSet.pinJointSetAnchorA
      StructField.gearJointPhase (PVal.num 5)).2.1 rfl,
   (constraint_props_pass_through (fun _ _ => PVal.num 3)
      ⟨7, fun _ => PVal.num 0, 1, 2⟩ PropName.gearPhase
      FGet.pinJointGetAnchorA FSet.pinJointSetAnchorA
      StructField.gearJointPhase (PVal.num 5)).2.2.1 rfl⟩

/-- C5 counterexample: `impulse` is declared `property(_get_impulse)` — a
getter forwarding to `cpConstraintGetImpulse` but no setter — refuting the
claim that every exposed property is a paired getter/setter property. -/
theorem impulse_has_no_setter_cx :
    propSetter PropName.constraintImpulse = none ∧
    propGetter PropName.constraintImpulse =
      GetterBody.ffiCall FGet.constraintGetImpulse := by
  decide

/-- C5 (amended): every property except `impulse`, `a` and `b` is a paired
getter/setter property whose getter performs a native access (a foreign
call, or a direct cast-struct field access for `GearJoint.phase` /
`GearJoint.ratio` / `SimpleMotor.rate`); `impulse`, `a` and `b` are the
only getter-only properties. -/
theorem constraint_props_paired (p : PropName)
    (hp : p ∉ [PropName.constraintImpulse, PropName.constraintA,
               PropName.constraintB]) :
    (propSetter p).isSome = true ∧
    (propGetter p).isNativeAccess = true ∧
    allProps.filter (fun q => (propSetter q).isNone) =
      [.constraintImpulse, .constraintA, .constraintB] ∧
    p ∈ allProps := by
  cases p <;> revert hp <;> decide

/-- Witness for `constraint_props_paired` at `PinJoint.anchor_a`. -/
theorem constraint_props_paired_witness :
    (propSetter PropName.pinAnchorA).isSome = true :=
  (constraint_props_paired PropName.pinAnchorA (by decide)).1

/-- C7 counterexample: `RotaryLimitJoint` is a constraint class defined by
the module that implements none of the eight glossary joint kinds,
refuting the claim that the kind-named classes (plus the base class) are
the only constraint classes the module defines. -/
theorem rotary_limit_extra_class_cx :
    ModuleClass.rotaryLimitJoint ∈ moduleClasses ∧
    ModuleClass.rotaryLimitJoint ∉ allKinds.map classFor := by
  decide

/-- C7 (amended): each glossary joint kind — pin, slide, pivot, groove,
spring, motor, gear, ratchet — has a `Constraint` subclass whose
`__init__` creates the matching native handle via the corresponding
foreign constructor call; besides these eight classes the module defines
exactly two more constraint subclasses, `DampedRotarySpring` and
`RotaryLimitJoint`. -/
theorem joint_kinds_covered (k : JointKind) :
    kindCtor k ∈ ctorFns (classFor k) ∧
    classFor k ∈ moduleClasses ∧
    moduleClasses.filter (fun c => !(allKinds.map classFor).contains c) =
      [.dampedRotarySpring, .rotaryLimitJoint] := by
  cases k <;> decide

theorem runOp_trace_no_alloc_free (ffi : FGet → Nat → PVal) (h : Nat)
    (st : CState) (op : PropOp) :
    ((runOp ffi st op).2).countP (Event.allocates h) = 0 ∧
    ((runOp ffi st op).2).countP (Event.frees h) = 0 := by
  cases op with
  | get p =>
      cases hg : propGetter p <;>
        simp [runOp, readProp, runGetter, hg, Event.allocates, Event.frees,
          List.countP_cons]
  | set p v =>
      cases hs : propSetter p with
      | none => simp [runOp, writeProp, hs]
      | some sb =>
          cases sb <;>
            simp [runOp, writeProp, hs, runSetter, Event.allocates,
              Event.frees, List.countP_cons]

theorem runOps_trace_no_alloc_free (ffi : FGet → Nat → PVal) (h : Nat) :
    ∀ (ops : List PropOp) (st : CState),
      ((runOps ffi st ops).2).countP (Event.allocates h) = 0 ∧
      ((runOps ffi st ops).2).countP (Event.frees h) = 0
  | [], _ => by simp [runOps]
  | op :: rest, st => by
      have h1 := runOp_trace_no_alloc_free ffi h st op
      have h2 := runOps_trace_no_alloc_free ffi h rest (runOp ffi st op).1
      simp [runOps, List.countP_append, h1.1, h1.2, h2.1, h2.2]

/-- C3: over the lifetime of any constraint instance — construction by any
of the module's classes, then any sequence of property reads and writes,
then destruction — the native handle is allocated by exactly one foreign
constructor call, which is the very first event; it is freed by exactly one
`cpConstraintFree` call, which is the very last event; hence every foreign
call on the handle happens after its construction and before it is
freed. -/
theorem constraint_lifecycle_safe (ffi : FGet → Nat → PVal)
    (cls : ModuleClass) (two : Bool) (st : CState) (ops : List PropOp) :
    (lifecycleTrace ffi cls two st ops).countP (Event.allocates st.handle) = 1 ∧
    (lifecycleTrace ffi cls two st ops).countP (Event.frees st.handle) = 1 ∧
    (lifecycleTrace ffi cls two st ops).getLast? =
      some (Event.ffiFree st.handle) ∧
    (lifecycleTrace ffi cls two st ops).head? =
      some (Event.ffiNew (initCtor cls two) st.handle) := by
  have hops := runOps_trace_no_alloc_free ffi st.handle ops st
  refine ⟨?_, ?_, ?_, ?_⟩
  · simp [lifecycleTrace, List.countP_append, hops.1, Event.allocates,
      List.countP_cons]
  · simp [lifecycleTrace, List.countP_append, hops.2, Event.allocates,
      Event.frees, List.countP_cons]
  · show ((Event.ffiNew (initCtor cls two) st.handle :: (runOps ffi st ops).2) ++
        Event.ffiFree st.handle :: []).getLast? = some (Event.ffiFree st.handle)
    rw [List.getLast?_append_cons]
    rfl
  · simp [lifecycleTrace]

/-- C9: constructing a `PivotJoint` with a number of positional point
arguments other than one or two raises the exception from line 242 before
any foreign call is made: no native handle is created, no foreign
constructor event occurs, and both bodies' `_constraints` sets are left
exactly as they were. -/
theorem pivot_init_bad_args_no_effect (selfId newHandle : Nat)
    (a b : BodySt) (args : List PivotArg)
    (h1 : args.length ≠ 1) (h2 : args.length ≠ 2) :
    pivotJointInit selfId newHandle a b args =
      { err := some "You must specify either one pivot point or two anchor points",
        handle := none, a := a, b := b, events := [] } := by
  simp [pivotJointInit, h1, h2]

/-- Witness for `pivot_init_bad_args_no_effect` at zero point arguments. -/
theorem pivot_init_bad_args_no_effect_witness :
    pivotJointInit 0 1 ⟨1, []⟩ ⟨2, []⟩ [] =
      { err := some "You must specify either one pivot point or two anchor points",
        handle := none, a := ⟨1, []⟩, b := ⟨2, []⟩, events := [] } :=
  pivot_init_bad_args_no_effect 0 1 ⟨1, []⟩ ⟨2, []⟩ [] (by decide) (by decide)

end ConstraintPy

namespace PygletPy

theorem extends_pure : OnlyExtendsBatch (PyM.pure ()) := by
  intro st
  exact ⟨[], by simp [PyM.pure], rfl⟩

theorem extends_throw (e : PyExn) : OnlyExtendsBatch (PyM.throw e) := by
  intro st
  exact ⟨[], by simp [PyM.throw], rfl⟩

theorem extends_batchAdd (p : Prim) : OnlyExtendsBatch (batchAdd p) := by
  intro st
  exact ⟨[p], rfl, rfl⟩

theorem extends_bind {m : PyM Unit} {f : Unit → PyM Unit}
    (hm : OnlyExtendsBatch m) (hf : OnlyExtendsBatch (f ())) :
    OnlyExtendsBatch (PyM.bind m f) := by
  intro st
  obtain ⟨d1, hb1, hn1⟩ := hm st
  cases hm2 : m st with
  | mk r st' =>
      rw [hm2] at hb1 hn1
      cases r with
      | ok a =>
          cases a
          obtain ⟨d2, hb2, hn2⟩ := hf st'
          refine ⟨d1 ++ d2, ?_, ?_⟩
          · simp only [PyM.bind, hm2]
            rw [hb2, hb1, List.append_assoc]
          · simp only [PyM.bind, hm2]
            rw [hn2, hn1]
      | error e =>
          refine ⟨d1, ?_, ?_⟩
          · simp only [PyM.bind, hm2]
            exact hb1
          · simp only [PyM.bind, hm2]
            exact hn1

theorem extends_ite {c : Prop} [Decidable c] {m1 m2 : PyM Unit}
    (h1 : OnlyExtendsBatch m1) (h2 : OnlyExtendsBatch m2) :
    OnlyExtendsBatch (if c then m1 else m2) := by
  split <;> assumption

theorem extends_draw_circle (mf : MathFns) (pos : V2) (angle radius : ℚ)
    (oc fc : Color) : OnlyExtendsBatch (draw_circle mf pos angle radius oc fc) := by
  simp only [draw_circle]
  exact extends_ite (extends_throw _)
    (extends_ite (extends_throw _)
      (extends_bind (extends_batchAdd _) (extends_batchAdd _)))

theorem extends_draw_segment (a b : V2) (c : Color) :
    OnlyExtendsBatch (draw_segment a b c) := by
  simp only [draw_segment]
  exact extends_batchAdd _

theorem extends_draw_fat_segment (mf : MathFns) (a b : V2) (radius : ℚ)
    (oc fc : Color) :
    OnlyExtendsBatch (draw_fat_segment mf a b radius oc fc) := by
  simp only [draw_fat_segment]
  exact extends_bind (extends_batchAdd _)
    (extends_bind (extends_draw_circle _ _ _ _ _ _)
      (extends_draw_circle _ _ _ _ _ _))

theorem extends_polyEdges (mf : MathFns) (verts : List V2) (radius : ℚ)
    (oc : Color) :
    ∀ is : List ℕ, OnlyExtendsBatch (polyEdges mf verts radius oc is)
  | [] => by
      simp only [polyEdges]
      exact extends_pure
  | i :: rest => by
      simp only [polyEdges]
      exact extends_bind (extends_draw_fat_segment _ _ _ _ _ _)
        (extends_polyEdges mf verts radius oc rest)

theorem extends_draw_polygon (mf : MathFns) (verts : List V2) (radius : ℚ)
    (oc fc : Color) :
    OnlyExtendsBatch (draw_polygon mf verts radius oc fc) := by
  simp only [draw_polygon]
  exact extends_ite (extends_throw _)
    (extends_bind (extends_batchAdd _)
      (extends_ite (extends_polyEdges _ _ _ _ _) extends_pure))

theorem extends_draw_dot (size : ℚ) (pos : V2) (c : Color) :
    OnlyExtendsBatch (draw_dot size pos c) := by
  simp only [draw_dot]
  exact extends_batchAdd _

/-- C8: every `draw_*` method of the pyglet `DrawOptions` adapter only adds
vertex primitives to its batch: whether the call returns normally or
raises, the state it leaves behind is the input state with zero or more
primitives appended to the batch, and `new_batch` — the only other
instance state — is unchanged.  The geometric inputs (positions,
endpoints, radii, vertex sequences, colors) are immutable values in the
embedding, mirroring the source, which rebinds locals but never writes
into its arguments. -/
theorem draw_methods_only_extend_batch (mf : MathFns) (pos a b : V2)
    (angle radius size : ℚ) (oc fc : Color) (verts : List V2) :
    OnlyExtendsBatch (draw_circle mf pos angle radius oc fc) ∧
    OnlyExtendsBatch (draw_segment a b oc) ∧
    OnlyExtendsBatch (draw_fat_segment mf a b radius oc fc) ∧
    OnlyExtendsBatch (draw_polygon mf verts radius oc fc) ∧
    OnlyExtendsBatch (draw_dot size pos oc) :=
  ⟨extends_draw_circle mf pos angle radius oc fc,
   extends_draw_segment a b oc,
   extends_draw_fat_segment mf a b radius oc fc,
   extends_draw_polygon mf verts radius oc fc,
   extends_draw_dot size pos oc⟩

end PygletPy
